import Mathlib

set_option autoImplicit false

namespace ZendeskScraper

/-! # Shallow embedding of the zendeskscrapper core

Embeds `src/zendesk_client.py`, `src/utils/rate_limiter.py`,
`src/data_collectors/tickets.py` and `src/data_collectors/users.py`.
JSON bodies are modelled by `JVal`; Python dicts by insertion-ordered
association lists with unique keys (Python dict semantics); machine time by
`ℚ` seconds; a Python exception by an `Except` error value; a crash
(KeyError/TypeError/AttributeError on ill-shaped data) by `Option.none`.
-/

/-- A JSON value / Python object as handled by the scraper. -/
inductive JVal where
  | null
  | bool (b : Bool)
  | num (n : Int)
  | str (s : String)
  | arr (elems : List JVal)
  | obj (fields : List (String × JVal))

mutual

/-- Boolean equality on `JVal` (Python `==` on the values the scraper handles). -/
def JVal.beq : JVal → JVal → Bool
  | .null, .null => true
  | .bool a, .bool b => a == b
  | .num a, .num b => a == b
  | .str a, .str b => a == b
  | .arr xs, .arr ys => JVal.beqArr xs ys
  | .obj xs, .obj ys => JVal.beqObj xs ys
  | _, _ => false

def JVal.beqArr : List JVal → List JVal → Bool
  | [], [] => true
  | x :: xs, y :: ys => JVal.beq x y && JVal.beqArr xs ys
  | _, _ => false

def JVal.beqObj : List (String × JVal) → List (String × JVal) → Bool
  | [], [] => true
  | (k, v) :: xs, (k', v') :: ys => k == k' && JVal.beq v v' && JVal.beqObj xs ys
  | _, _ => false

end

/-- A JSON object body / Python dict: insertion-ordered key-value pairs. -/
abbrev Record := List (String × JVal)

/-- First-match association lookup: `d[k]` / `k in d` (dict keys are unique). -/
def recordLookup (r : Record) (k : String) : Option JVal :=
  match r with
  | [] => none
  | (k', v) :: rest => if k' = k then some v else recordLookup rest k

/-- Python `d.get(k, default)`. -/
def jget (r : Record) (k : String) (d : JVal) : JVal :=
  (recordLookup r k).getD d

/-- Python `d.get(k)` (missing key gives `None`). -/
def pyGet (r : Record) (k : String) : JVal :=
  jget r k .null

/-- Python truthiness of a value (`if x:` / `if not x:`). -/
def truthy : JVal → Bool
  | .null => false
  | .bool b => b
  | .num n => n != 0
  | .str s => s != ""
  | .arr [] => false
  | .arr (_ :: _) => true
  | .obj [] => false
  | .obj (_ :: _) => true

/-- Python dict assignment `d[k] = v`: overwrite in place, else append. -/
def setKey (r : Record) (k : String) (v : JVal) : Record :=
  match r with
  | [] => [(k, v)]
  | (k', v') :: rest => if k' = k then (k, v) :: rest else (k', v') :: setKey rest k v

/-- Rough Python `str()` of a value, used only in interpolated f-strings. -/
def pyStr : JVal → String
  | .null => "None"
  | .bool true => "True"
  | .bool false => "False"
  | .num n => toString n
  | .str s => s
  | .arr _ => "[...]"
  | .obj _ => "{...}"

/-! ## HTTP transport (`zendesk_client.py`) -/

/-- An HTTP response as seen by `_make_request` / `.json()`.
`retryAfterHeader` is the numeric value of the `Retry-After` header when
present (the source applies `int(...)` to it); `body = none` models a
response whose `.json()` raises a JSON decode error. -/
structure HttpResponse where
  status : Nat
  retryAfterHeader : Option Nat
  body : Option JVal

/-- `int(response.headers.get('Retry-After', 60))` (zendesk_client.py line 82). -/
def retryAfterOf (r : HttpResponse) : Nat :=
  r.retryAfterHeader.getD 60

/-- `ZendeskAPIError(message, status_code=None, response=None)`. -/
structure ZendeskAPIError where
  msg : String
  status_code : Option Nat := none
  response : Option HttpResponse := none

/-- A network-layer exception from `requests` (`requests.exceptions.*`,
all subclasses of `RequestException`). -/
inductive NetExc where
  | connectionError
  | timeout
  | requestException
deriving DecidableEq

def netExcMsg : NetExc → String
  | .connectionError => "ConnectionError"
  | .timeout => "Timeout"
  | .requestException => "RequestException"

/-- What `self.session.request(...)` does on one call: either delivers a
response or raises a network-layer exception. -/
inductive ReqOutcome where
  | resp (r : HttpResponse)
  | exc (e : NetExc)

namespace ZendeskClient

/-- `ZendeskClient._make_request` (zendesk_client.py lines 48-90), as a
function of the outcome of the underlying `session.request` call. -/
def make_request (endpoint : String) (o : ReqOutcome) :
    Except ZendeskAPIError HttpResponse :=
  match o with
  | .exc e => .error ⟨"Request failed: " ++ netExcMsg e, none, none⟩
  | .resp response =>
    if response.status = 200 then .ok response
    else if response.status = 201 then .ok response
    else if response.status = 204 then .ok response
    else if response.status = 401 then
      .error ⟨"Authentication failed. Check your API credentials.", some 401, some response⟩
    else if response.status = 403 then
      .error ⟨"Access forbidden. Check your permissions.", some 403, some response⟩
    else if response.status = 404 then
      .error ⟨"Resource not found: " ++ endpoint, some 404, some response⟩
    else if response.status = 429 then
      .error ⟨"Rate limit exceeded. Retry after " ++ toString (retryAfterOf response)
                ++ " seconds.", some 429, some response⟩
    else if response.status ≥ 500 then
      .error ⟨"Server error: " ++ toString response.status, some response.status, some response⟩
    else
      .error ⟨"Unexpected status code: " ++ toString response.status,
              some response.status, some response⟩

/-- `ZendeskClient.get` (zendesk_client.py lines 92-107): `_make_request`
followed by `.json()`, with a decode failure re-raised as a
`ZendeskAPIError` with no status code. -/
def get (endpoint : String) (o : ReqOutcome) : Except ZendeskAPIError JVal :=
  match make_request endpoint o with
  | .error e => .error e
  | .ok response =>
    match response.body with
    | some j => .ok j
    | none => .error ⟨"Invalid JSON response from API", none, none⟩

end ZendeskClient

/-! ## Paginator (`ZendeskClient.get_paginated`, zendesk_client.py 109-154) -/

/-- A query-parameter value after the post-processing at zendesk_client.py
lines 133-135: a single string (`v[0]` when the `parse_qs` list has exactly
one element) or the original list of strings. -/
inductive QVal where
  | one (v : String)
  | many (vs : List String)
deriving DecidableEq

/-- Query parameters as passed to `self.get`. -/
abbrev Params := List (String × QVal)

/-- The `path` and `query` components of `urllib.parse.urlparse`. -/
structure ParsedUrl where
  path : String
  query : String
deriving DecidableEq

/-- Does the second character list start with the first? -/
def listStartsWith : List Char → List Char → Bool
  | [], _ => true
  | _ :: _, [] => false
  | p :: ps, c :: cs => p == c && listStartsWith ps cs

/-- The characters after the first occurrence of `ch`, if any. -/
def afterChar (ch : Char) : List Char → Option (List Char)
  | [] => none
  | c :: cs => if c == ch then some cs else afterChar ch cs

/-- The suffix starting at the first occurrence of `ch` (inclusive), or `[]`. -/
def fromChar (ch : Char) : List Char → List Char
  | [] => []
  | c :: cs => if c == ch then c :: cs else fromChar ch cs

/-- Split at the first occurrence of `ch`: the part before it, and the part
after it when `ch` occurs. -/
def breakAtChar (ch : Char) : List Char → List Char × Option (List Char)
  | [] => ([], none)
  | c :: cs =>
    if c == ch then ([], some cs)
    else
      let r := breakAtChar ch cs
      (c :: r.1, r.2)

/-- Split on every occurrence of `ch` (like `str.split(ch)`). -/
def splitOnChar (ch : Char) : List Char → List (List Char)
  | [] => [[]]
  | c :: cs =>
    let r := splitOnChar ch cs
    if c == ch then [] :: r
    else
      match r with
      | [] => [[c]]
      | x :: xs => (c :: x) :: xs

/-- `urllib.parse.urlparse` for the absolute `scheme://netloc/path?query`
URLs the API returns in `next_page`: drop the scheme (up to the first `:`)
and the `//netloc` part, take the path from the first `/`, and split path
from query at the first `?`. (Fragments, params and percent-decoding are not
modelled — the URLs involved contain none.) -/
def urlparse (u : String) : ParsedUrl :=
  let rest :=
    match afterChar ':' u.toList with
    | none => u.toList
    | some r => if listStartsWith ['/', '/'] r then r.drop 2 else r
  let pathQuery := fromChar '/' rest
  match breakAtChar '?' pathQuery with
  | (p, none) => ⟨⟨p⟩, ""⟩
  | (p, some q) => ⟨⟨p⟩, ⟨q⟩⟩

/-- The key-value fields of a query string: split on `&`, split each field at
the first `=`, drop fields with no `=` or a blank value (`parse_qs` defaults:
`keep_blank_values=False`; percent-decoding not modelled). -/
def parseQsPairs (query : String) : List (String × String) :=
  (splitOnChar '&' query.toList).foldl
    (fun acc seg =>
      match breakAtChar '=' seg with
      | (_, none) => acc
      | (k, some v) => if v = [] then acc else acc ++ [(⟨k⟩, ⟨v⟩)])
    []

/-- Append one value to a grouped multi-dict, preserving first-occurrence
key order. -/
def addParam (acc : List (String × List String)) (k v : String) :
    List (String × List String) :=
  match acc with
  | [] => [(k, [v])]
  | (k', vs) :: rest =>
    if k' = k then (k', vs ++ [v]) :: rest else (k', vs) :: addParam rest k v

/-- `urllib.parse.parse_qs`: each key maps to the list of its values. -/
def parse_qs (query : String) : List (String × List String) :=
  (parseQsPairs query).foldl (fun acc kv => addParam acc kv.1 kv.2) []

/-- The dict comprehension at zendesk_client.py lines 133-135: unwrap
single-element value lists to the bare string. -/
def unwrapParams (ps : List (String × List String)) : Params :=
  ps.map fun kv =>
    match kv.2 with
    | [v] => (kv.1, QVal.one v)
    | vs => (kv.1, QVal.many vs)

/-- zendesk_client.py lines 122-139: turn the current `url` (a relative
endpoint or an absolute `next_page` URL) into the endpoint and parameters
passed to `self.get`. For an absolute URL the path has a leading `/api/v2`
stripped (`endpoint_path[7:]`) and the parameters come from the URL's query
string; otherwise the url itself is the endpoint and `request_params` is
used. -/
def resolveRequest (url : String) (request_params : Params) : String × Params :=
  if listStartsWith "http".toList url.toList then
    let parsed := urlparse url
    let endpoint_path : String :=
      if listStartsWith "/api/v2".toList parsed.path.toList then
        ⟨parsed.path.toList.drop 7⟩
      else parsed.path
    (endpoint_path, unwrapParams (parse_qs parsed.query))
  else (url, request_params)

def isArr : JVal → Bool
  | .arr _ => true
  | _ => false

/-- zendesk_client.py lines 141-146: the first top-level key whose value is
a list and which is not literally `next_page`. -/
def findDataKey (r : Record) : Option String :=
  match r with
  | [] => none
  | (k, v) :: rest =>
    match v with
    | .arr _ => if k ≠ "next_page" then some k else findDataKey rest
    | _ => findDataKey rest

/-- The records one page body contributes (lines 148-150): the elements of
`response_data[data_key]`, or nothing when no list-valued key exists. -/
def pageItems (r : Record) : List JVal :=
  match findDataKey r with
  | none => []
  | some k =>
    match recordLookup r k with
    | some (.arr xs) => xs
    | _ => []

/-- Line 153 plus the `while url:` test: `next_page` continues the loop only
when it is a non-empty string; an absent or `None` (or empty/non-string)
`next_page` ends the iteration. -/
def nextUrlOf (r : Record) : Option String :=
  match recordLookup r "next_page" with
  | some (.str s) => if s = "" then none else some s
  | _ => none

namespace ZendeskClient

/-- `ZendeskClient.get_paginated` (zendesk_client.py lines 109-154), with the
`self.get` calls abstracted by a pure `server` mapping resolved
(endpoint, params) requests to page bodies (each request succeeds, as in the
claim's scenario). `fuel` bounds the number of pages followed, making the
`while` loop a total function; the theorems supply enough fuel for their
chains. Note `request_params = {}` after the first page (line 154). -/
def get_paginated (server : String → Params → Record) :
    Nat → String → Params → List JVal
  | 0, _, _ => []
  | fuel + 1, url, request_params =>
    if url = "" then []
    else
      let resolved := resolveRequest url request_params
      let response_data := server resolved.1 resolved.2
      let items := pageItems response_data
      match nextUrlOf response_data with
      | none => items
      | some u => items ++ get_paginated server fuel u []

end ZendeskClient

/-- The body chain served after the first page: each body's `next_page` names
the url whose resolution the server answers with the next body; the last
body's `next_page` is absent, `None` or otherwise falsy. -/
def Chained : Record → List (String × Record) → Prop
  | b, [] => nextUrlOf b = none
  | b, (u, b') :: rest => nextUrlOf b = some u ∧ Chained b' rest

/-! ## Sliding-window throttle (`RateLimiter`, rate_limiter.py lines 13-45) -/

/-- `self.request_times`: timestamps (in seconds) of past requests, oldest
first. -/
abbrev Window := List ℚ

/-- The `while` loop at rate_limiter.py lines 33-34: pop from the front while
the front entry is strictly older than one minute. -/
def evictOld (now : ℚ) : Window → Window
  | [] => []
  | t :: rest => if now - t > 60 then evictOld now rest else t :: rest

/-- `RateLimiter.wait_if_needed` (rate_limiter.py lines 27-45) called at time
`now`: returns the seconds slept and the updated queue. Note the source
appends `now` (taken at entry), sleeps only when `sleep_time > 0`, and pops
the oldest entry only after an actual sleep. (With `requests_per_minute = 0`
and an empty queue the source raises IndexError; that case is modelled as a
zero-sleep no-op and excluded by the `1 ≤ limit` hypotheses below.) -/
def wait_if_needed (requests_per_minute : Nat) (times : Window) (now : ℚ) :
    ℚ × Window :=
  let times := evictOld now times
  let (slept, times) :=
    if requests_per_minute ≤ times.length then
      match times with
      | [] => (0, [])
      | t0 :: rest =>
        let sleep_time := t0 + 60 - now
        if sleep_time > 0 then (sleep_time, rest) else (0, t0 :: rest)
    else (0, times)
  (slept, times ++ [now])

/-- How many recorded timestamps lie within the last 60 seconds at time
`now` (the complement of the eviction condition `now - t > 60`). -/
def inWindowCount (now : ℚ) (times : Window) : Nat :=
  (times.filter fun t => decide (now - t ≤ 60)).length

/-! ## Retry wrapper (`APIRateLimiter.__call__`, rate_limiter.py lines 63-101) -/

/-- A Python exception as seen by the retry wrapper around `_make_request`. -/
inductive PyErr where
  /-- `ZendeskAPIError` — not a `requests.exceptions.RequestException`. -/
  | api (e : ZendeskAPIError)
  /-- `requests.exceptions.HTTPError`, carrying `e.response` (possibly None). -/
  | httpError (response : Option HttpResponse)
  /-- `ConnectionError` / `Timeout` / generic `RequestException`. -/
  | net (e : NetExc)
  /-- AttributeError from `e.response.status_code` when `e.response` is None. -/
  | attributeError
  /-- `tenacity.RetryError` wrapping the last attempt's exception. -/
  | retryError (last : PyErr)

/-- `retry_if_exception_type((RequestException, HTTPError, ConnectionError,
Timeout))` (rate_limiter.py lines 76-81): all four are `RequestException`
subclasses; `ZendeskAPIError` is not one. -/
def isRetryable : PyErr → Bool
  | .httpError _ => true
  | .net _ => true
  | _ => false

/-- `wait_exponential(multiplier=1, min=4, max=10)`: the wait in seconds
after `failed` failed attempts is `1 * 2 ^ failed` clamped into `[4, 10]`. -/
def waitExponential (failed : Nat) : Nat :=
  max 4 (min (2 ^ failed) 10)

/-- The behaviour of the wrapped function (`func`, i.e. the undecorated
`_make_request`): what the call on 1-based attempt `n` returns or raises. -/
abbrev AttemptFn := Nat → Except PyErr HttpResponse

/-- One event in the execution trace of a decorated call. -/
inductive Event where
  | call (attempt : Nat)
  | sleep (seconds : Nat)
deriving DecidableEq

/-- The body of `wrapper` (rate_limiter.py lines 83-99) on attempt `n`:
calls `func` once. A *returned* response with status 429 sleeps `Retry-After`
and raises `HTTPError(response=result)` inside the `try`; that very exception
is caught by the `except HTTPError` clause below it, which — seeing status
429 — sleeps `Retry-After` a second time before re-raising. A *raised*
`HTTPError` whose response has status 429 sleeps `Retry-After` once and
re-raises. Everything else passes through. Returns the outcome together with
the list of sleeps performed, in order. -/
def wrapperBody (f : AttemptFn) (n : Nat) : Except PyErr HttpResponse × List Nat :=
  match f n with
  | .ok result =>
    if result.status = 429 then
      let retry_after := result.retryAfterHeader.getD 60
      (.error (.httpError (some result)), [retry_after, retry_after])
    else (.ok result, [])
  | .error e =>
    match e with
    | .httpError response =>
      match response with
      | some resp =>
        if resp.status = 429 then (.error e, [retryAfterOf resp]) else (.error e, [])
      | none => (.error .attributeError, [])
    | _ => (.error e, [])

/-- The tenacity `@retry(stop=stop_after_attempt(..), wait=wait_exponential(..),
retry=retry_if_exception_type(..))` loop around `wrapperBody`. `fuel` is the
number of attempts still allowed, `n` the current 1-based attempt number.
Success and non-retryable exceptions surface immediately; a retryable
exception on the last allowed attempt surfaces wrapped in `RetryError`
(tenacity's default `reraise=False`); otherwise the loop sleeps
`wait_exponential` and re-attempts. Returns the outcome and the full event
trace. -/
def retryLoop (f : AttemptFn) : Nat → Nat → Except PyErr HttpResponse × List Event
  | 0, n =>
    let step := wrapperBody f n
    let evs := Event.call n :: step.2.map Event.sleep
    match step.1 with
    | .ok r => (.ok r, evs)
    | .error e =>
      if isRetryable e then (.error (.retryError e), evs) else (.error e, evs)
  | 1, n =>
    let step := wrapperBody f n
    let evs := Event.call n :: step.2.map Event.sleep
    match step.1 with
    | .ok r => (.ok r, evs)
    | .error e =>
      if isRetryable e then (.error (.retryError e), evs) else (.error e, evs)
  | fuel + 2, n =>
    let step := wrapperBody f n
    let evs := Event.call n :: step.2.map Event.sleep
    match step.1 with
    | .ok r => (.ok r, evs)
    | .error e =>
      if isRetryable e then
        let next := retryLoop f (fuel + 1) (n + 1)
        (next.1, evs ++ Event.sleep (waitExponential n) :: next.2)
      else (.error e, evs)

/-- `APIRateLimiter.__call__` (rate_limiter.py lines 63-101): decorating a
function applies ONLY the tenacity retry wrapper; the decorated function
never touches `self.rate_limiter` (the sliding-window throttle), so the
throttle queue passes through a call unchanged. (Only the separate, unused
`limit_request` method calls `wait_if_needed`.) -/
def apiRateLimiterCall (retry_attempts : Nat) (f : AttemptFn)
    (throttle : Window) : (Except PyErr HttpResponse × List Event) × Window :=
  (retryLoop f retry_attempts 1, throttle)

/-- `rate_limited_request(requests_per_minute, retry_attempts)` followed by
decoration, as done in `ZendeskClient.__init__` (zendesk_client.py lines
43-46): builds `APIRateLimiter(requests_per_minute, retry_attempts)` and
applies its `__call__` to `_make_request`. `requests_per_minute` has no
effect on this path. -/
def rate_limited_request (requests_per_minute retry_attempts : Nat)
    (f : AttemptFn) (throttle : Window) :
    (Except PyErr HttpResponse × List Event) × Window :=
  apiRateLimiterCall retry_attempts f throttle

/-- The function the decorator actually wraps in `ZendeskClient.__init__`:
the FULL `_make_request` (zendesk_client.py lines 48-90), whose own
`try/except` has already converted every `requests` exception into a
`ZendeskAPIError` (lines 89-90) and has raised — never returned — on every
non-2xx status, including 429 (line 83). `outcomes n` is what the underlying
`session.request` does on attempt `n`. -/
def clientAttemptFn (endpoint : String) (outcomes : Nat → ReqOutcome) : AttemptFn :=
  fun n =>
    match ZendeskClient.make_request endpoint (outcomes n) with
    | .ok r => .ok r
    | .error e => .error (.api e)

/-- Number of invocations of the underlying function in a trace. -/
def callCount (evs : List Event) : Nat :=
  (evs.filter fun ev => match ev with | .call _ => true | .sleep _ => false).length

/-- Total seconds slept in a trace. -/
def sleepSum (evs : List Event) : Nat :=
  evs.foldl (fun acc ev => match ev with | .sleep s => acc + s | .call _ => acc) 0

/-! ## Collectors (`data_collectors/tickets.py`, `data_collectors/users.py`) -/

/-- A per-collector cache dict mapping an id (in practice an int, but any
hashable value a record may carry) to the cached value. -/
abbrev Cache := List (JVal × JVal)

/-- `id in cache` / `cache[id]`, with Python `==` on keys. -/
def cacheLookup (c : Cache) (k : JVal) : Option JVal :=
  match c with
  | [] => none
  | (k', v) :: rest => if JVal.beq k' k then some v else cacheLookup rest k

/-- `v.get(k, d)` when a cached value (any `JVal`) is used as a dict; the
cached sentinel is always `{}` so the non-dict case (an AttributeError in
Python) does not arise on the modelled paths. -/
def jvalGetD (v : JVal) (k : String) (d : JVal) : JVal :=
  match v with
  | .obj fields => jget fields k d
  | _ => d

namespace TicketsCollector

/-- The remote lookups a `TicketsCollector` makes, abstracted as pure
functions from the interpolated id to the outcome of the `self.client.get`
(or `get_ticket_comments`) call — deterministic within a run. Responses are
the parsed JSON dicts. -/
structure Env where
  userLookup : JVal → Except ZendeskAPIError Record
  orgLookup : JVal → Except ZendeskAPIError Record
  groupLookup : JVal → Except ZendeskAPIError Record
  fieldLookup : JVal → Except ZendeskAPIError Record
  comments : JVal → Except ZendeskAPIError (List Record)

/-- The collector's four caches (tickets.py lines 22-26). -/
structure Caches where
  users_cache : Cache := []
  organizations_cache : Cache := []
  groups_cache : Cache := []
  custom_fields_cache : Cache := []

/-- `TicketsCollector._get_user_info` (tickets.py lines 119-138): falsy ids
short-circuit to `{}`; a cache miss issues one lookup and caches
`response.get('user', {})`, or `{}` on `ZendeskAPIError`. The `Nat` counts
network lookups issued by this call. -/
def get_user_info (env : Env) (c : Caches) (user_id : JVal) :
    JVal × Caches × Nat :=
  if truthy user_id = false then (.obj [], c, 0)
  else
    match cacheLookup c.users_cache user_id with
    | some v => (v, c, 0)
    | none =>
      let v :=
        match env.userLookup user_id with
        | .ok response => jget response "user" (.obj [])
        | .error _ => .obj []
      (v, { c with users_cache := c.users_cache ++ [(user_id, v)] }, 1)

/-- `TicketsCollector._get_organization_info` (tickets.py lines 140-159). -/
def get_organization_info (env : Env) (c : Caches) (org_id : JVal) :
    JVal × Caches × Nat :=
  if truthy org_id = false then (.obj [], c, 0)
  else
    match cacheLookup c.organizations_cache org_id with
    | some v => (v, c, 0)
    | none =>
      let v :=
        match env.orgLookup org_id with
        | .ok response => jget response "organization" (.obj [])
        | .error _ => .obj []
      (v, { c with organizations_cache := c.organizations_cache ++ [(org_id, v)] }, 1)

/-- `TicketsCollector._get_group_info` (tickets.py lines 161-180). -/
def get_group_info (env : Env) (c : Caches) (group_id : JVal) :
    JVal × Caches × Nat :=
  if truthy group_id = false then (.obj [], c, 0)
  else
    match cacheLookup c.groups_cache group_id with
    | some v => (v, c, 0)
    | none =>
      let v :=
        match env.groupLookup group_id with
        | .ok response => jget response "group" (.obj [])
        | .error _ => .obj []
      (v, { c with groups_cache := c.groups_cache ++ [(group_id, v)] }, 1)

/-- `TicketsCollector._process_custom_fields` (tickets.py lines 182-213),
threading the accumulated `processed` dict and the caches. `none` models the
AttributeError raised when a list element is not a dict. Fields whose
`value` is `None` are skipped. -/
def process_custom_fields (env : Env) :
    List JVal → Record → Caches → Option (Record × Caches)
  | [], processed, c => some (processed, c)
  | field :: rest, processed, c =>
    match field with
    | .obj ffields =>
      let field_id := jget ffields "id" .null
      match jget ffields "value" .null with
      | .null => process_custom_fields env rest processed c
      | field_value =>
        let hit := cacheLookup c.custom_fields_cache field_id
        let field_def :=
          match hit with
          | some v => v
          | none =>
            match env.fieldLookup field_id with
            | .ok response => jget response "ticket_field" (.obj [])
            | .error _ => .obj []
        let c' :=
          match hit with
          | some _ => c
          | none =>
            { c with custom_fields_cache :=
                c.custom_fields_cache ++ [(field_id, field_def)] }
        let field_title :=
          match jvalGetD field_def "title" (.str ("Custom Field " ++ pyStr field_id)) with
          | .str s => s
          | v => pyStr v
        process_custom_fields env rest (setKey processed field_title field_value) c'
    | _ => none

/-- The comments block of `_enrich_ticket_data` (tickets.py lines 92-105):
fetch the thread, resolve every comment's author through the users cache and
set `author_name`; on `ZendeskAPIError` the placeholder `[]` is stored.
`none` models the KeyError when the ticket has no `id`. -/
def add_comments (env : Env) (c : Caches) (ticket : Record)
    (include_comments : Bool) : Option (Record × Caches) :=
  if include_comments then
    match recordLookup ticket "id" with
    | none => none
    | some tid =>
      match env.comments tid with
      | .ok comments =>
        let fold := comments.foldl
          (fun (acc : List JVal × Caches) comment =>
            let r := get_user_info env acc.2 (pyGet comment "author_id")
            let comment_data :=
              setKey comment "author_name" (jvalGetD r.1 "name" (.str "Unknown"))
            (acc.1 ++ [JVal.obj comment_data], r.2.1))
          ([], c)
        some (setKey ticket "comments" (.arr fold.1), fold.2)
      | .error _ => some (setKey ticket "comments" (.arr []), c)
  else some (ticket, c)

/-- Lines 107-111 of tickets.py: resolve the four foreign-key ids through
the caches and set the `*_info` keys. -/
def add_related (env : Env) (c : Caches) (t : Record) : Record × Caches :=
  let r1 := get_user_info env c (pyGet t "requester_id")
  let t1 := setKey t "requester_info" r1.1
  let r2 := get_user_info env r1.2.1 (pyGet t1 "assignee_id")
  let t2 := setKey t1 "assignee_info" r2.1
  let r3 := get_organization_info env r2.2.1 (pyGet t2 "organization_id")
  let t3 := setKey t2 "organization_info" r3.1
  let r4 := get_group_info env r3.2.1 (pyGet t3 "group_id")
  (setKey t3 "group_info" r4.1, r4.2.1)

/-- Lines 113-115 of tickets.py: when `ticket.get('custom_fields')` is
truthy, process it into `custom_fields_processed`. A truthy non-list value
makes the `for` loop raise in Python (`none` here). -/
def add_custom (env : Env) (c : Caches) (t : Record) : Option (Record × Caches) :=
  if truthy (pyGet t "custom_fields") then
    match recordLookup t "custom_fields" with
    | some (.arr fields) =>
      match process_custom_fields env fields [] c with
      | some (processed, c') =>
        some (setKey t "custom_fields_processed" (.obj processed), c')
      | none => none
    | _ => none
  else some (t, c)

/-- `TicketsCollector._enrich_ticket_data` (tickets.py lines 82-117). -/
def enrich_ticket_data (env : Env) (c : Caches) (ticket : Record)
    (include_comments : Bool) : Option (Record × Caches) :=
  match add_comments env c ticket include_comments with
  | none => none
  | some (t1, c1) =>
    let related := add_related env c1 t1
    add_custom env related.2 related.1

/-- The primary stream produced by `self.client.get_tickets(**params)`: the
records the generator yields before either finishing or raising a
`ZendeskAPIError` mid-pagination. -/
structure TicketStream where
  items : List Record
  failure : Option ZendeskAPIError

/-- `tickets_by_status[status].append(t)` on the `defaultdict(list)`,
preserving first-seen key order. -/
def appendByStatus (m : List (JVal × List Record)) (k : JVal) (t : Record) :
    List (JVal × List Record) :=
  match m with
  | [] => [(k, [t])]
  | (k', ts) :: rest =>
    if JVal.beq k' k then (k', ts ++ [t]) :: rest
    else (k', ts) :: appendByStatus rest k t

/-- The `for ticket in self.client.get_tickets(...)` loop body (tickets.py
lines 59-71, ignoring console/progress output and the periodic 0.1s sleep):
enrich each record, then bucket it by `ticket.get('status', 'unknown')`
(read from the same — by now enriched in place — dict). `none` models a
non-`ZendeskAPIError` exception escaping the loop. -/
def collectLoop (env : Env) (include_comments : Bool) :
    List Record → Caches → List (JVal × List Record) →
    Option (List (JVal × List Record) × Caches)
  | [], c, acc => some (acc, c)
  | ticket :: rest, c, acc =>
    match enrich_ticket_data env c ticket include_comments with
    | none => none
    | some (enriched_ticket, c') =>
      let status := jget enriched_ticket "status" (.str "unknown")
      collectLoop env include_comments rest c'
        (appendByStatus acc status enriched_ticket)

/-- `TicketsCollector.collect_all` (tickets.py lines 28-80): the whole loop
runs inside `try: ... except ZendeskAPIError: return {}` — when the stream
fails mid-pagination (after every yielded record was already enriched), the
dict built so far is discarded and `{}` is returned. -/
def collect_all (env : Env) (c : Caches) (include_comments : Bool)
    (stream : TicketStream) : Option (List (JVal × List Record)) :=
  match collectLoop env include_comments stream.items c [] with
  | none => none
  | some (acc, _) =>
    match stream.failure with
    | some _ => some []
    | none => some acc

end TicketsCollector

namespace UsersCollector

/-- The remote lookups a `UsersCollector` makes; search-count queries are
keyed by their query string. -/
structure Env where
  orgLookup : JVal → Except ZendeskAPIError Record
  groupLookup : JVal → Except ZendeskAPIError Record
  membershipsLookup : JVal → Except ZendeskAPIError Record
  searchCount : String → Except ZendeskAPIError Record

/-- The collector's caches (users.py lines 21-24). -/
structure Caches where
  organizations_cache : Cache := []
  groups_cache : Cache := []
  user_stats_cache : Cache := []

/-- `UsersCollector._get_organization_info` (users.py lines 95-114): same
shape as the tickets collector's, with the falsy-id guard. -/
def get_organization_info (env : Env) (c : Caches) (org_id : JVal) :
    JVal × Caches × Nat :=
  if truthy org_id = false then (.obj [], c, 0)
  else
    match cacheLookup c.organizations_cache org_id with
    | some v => (v, c, 0)
    | none =>
      let v :=
        match env.orgLookup org_id with
        | .ok response => jget response "organization" (.obj [])
        | .error _ => .obj []
      (v, { c with organizations_cache := c.organizations_cache ++ [(org_id, v)] }, 1)

/-- `UsersCollector._get_group_info` (users.py lines 141-157): note there is
no falsy-id guard here (the call site checks `if group_id:`). -/
def get_group_info (env : Env) (c : Caches) (group_id : JVal) :
    JVal × Caches × Nat :=
  match cacheLookup c.groups_cache group_id with
  | some v => (v, c, 0)
  | none =>
    let v :=
      match env.groupLookup group_id with
      | .ok response => jget response "group" (.obj [])
      | .error _ => .obj []
    (v, { c with groups_cache := c.groups_cache ++ [(group_id, v)] }, 1)

/-- The membership loop of `_get_user_groups` (users.py lines 129-137).
`none` models the AttributeError when a membership is not a dict. -/
def userGroupsLoop (env : Env) :
    List JVal → List JVal → Caches → Option (List JVal × Caches)
  | [], groups, c => some (groups, c)
  | membership :: rest, groups, c =>
    match membership with
    | .obj mfields =>
      let group_id := jget mfields "group_id" .null
      if truthy group_id then
        let r := get_group_info env c group_id
        if truthy r.1 then userGroupsLoop env rest (groups ++ [r.1]) r.2.1
        else userGroupsLoop env rest groups r.2.1
      else userGroupsLoop env rest groups c
    | _ => none

/-- `UsersCollector._get_user_groups` (users.py lines 116-139): fetch
memberships, resolve each truthy `group_id` through the groups cache, keep
the truthy results; `ZendeskAPIError` anywhere inside degrades to `[]`.
(`none` = a non-`ZendeskAPIError` crash, which the `except` does not catch.) -/
def get_user_groups (env : Env) (c : Caches) (user_id : JVal) :
    Option (List JVal × Caches) :=
  match env.membershipsLookup user_id with
  | .error _ => some ([], c)
  | .ok response =>
    match jget response "group_memberships" (.arr []) with
    | .arr memberships => userGroupsLoop env memberships [] c
    | _ => none

/-- `UsersCollector._get_user_statistics` (users.py lines 159-208): three
independently-guarded search-count queries; a failing query leaves its count
at 0; the triple is cached per user id. -/
def get_user_statistics (env : Env) (c : Caches) (user_id : JVal) :
    JVal × Caches :=
  match cacheLookup c.user_stats_cache user_id with
  | some v => (v, c)
  | none =>
    let requested :=
      match env.searchCount ("type:ticket requester:" ++ pyStr user_id) with
      | .ok response => jget response "count" (.num 0)
      | .error _ => .num 0
    let assigned :=
      match env.searchCount ("type:ticket assignee:" ++ pyStr user_id) with
      | .ok response => jget response "count" (.num 0)
      | .error _ => .num 0
    let solved :=
      match env.searchCount
          ("type:ticket assignee:" ++ pyStr user_id ++ " status:solved") with
      | .ok response => jget response "count" (.num 0)
      | .error _ => .num 0
    let stats := JVal.obj
      [("tickets_requested", requested), ("tickets_assigned", assigned),
       ("tickets_solved", solved)]
    (stats, { c with user_stats_cache := c.user_stats_cache ++ [(user_id, stats)] })

/-- `UsersCollector._enrich_user_data` (users.py lines 75-93). `none` models
the KeyError of `user['id']` or a crash inside `_get_user_groups`. -/
def enrich_user_data (env : Env) (c : Caches) (user : Record) :
    Option (Record × Caches) :=
  let r1 := get_organization_info env c (pyGet user "organization_id")
  let u1 := setKey user "organization_info" r1.1
  match recordLookup u1 "id" with
  | none => none
  | some uid =>
    match get_user_groups env r1.2.1 uid with
    | none => none
    | some (groups, c2) =>
      let u2 := setKey u1 "groups_info" (.arr groups)
      let r3 := get_user_statistics env c2 uid
      some (setKey u2 "statistics" r3.1, r3.2)

end UsersCollector

/-- The keys `_enrich_ticket_data` may set. -/
def ticketDerivedKeys : List String :=
  ["comments", "requester_info", "assignee_info", "organization_info",
   "group_info", "custom_fields_processed"]

/-- The keys `_enrich_user_data` may set. -/
def userDerivedKeys : List String :=
  ["organization_info", "groups_info", "statistics"]

/-! ## Concrete fixtures used by witnesses -/

def ticketsPage1 : Record :=
  [("tickets", .arr [.num 1, .num 2]),
   ("next_page", .str "https://sub.zendesk.com/api/v2/tickets.json?page=2")]

def ticketsPage2 : Record :=
  [("tickets", .arr [.num 3]), ("next_page", .null)]

/-- A two-page server: the follow-up request (recognised by its `page=2`
query parameter) is answered with the second page. -/
def twoPageServer : String → Params → Record :=
  fun _ ps => if ps = [("page", QVal.one "2")] then ticketsPage2 else ticketsPage1

/-- A stub environment for concrete collector runs: users and groups resolve,
organizations 404, comment threads are empty. -/
def stubTicketsEnv : TicketsCollector.Env :=
  { userLookup := fun _ => .ok [("user", .obj [("name", .str "Ada")])],
    orgLookup := fun _ => .error ⟨"Resource not found: /organizations", some 404, none⟩,
    groupLookup := fun _ => .ok [("group", .obj [("name", .str "Support")])],
    fieldLookup := fun _ => .ok [("ticket_field", .obj [("title", .str "Severity")])],
    comments := fun _ => .ok [] }

/-- A stub environment whose comment-thread fetch always fails. -/
def failingCommentsEnv : TicketsCollector.Env :=
  { stubTicketsEnv with
    comments := fun _ => .error ⟨"Server error: 500", some 500, none⟩ }

def stubUsersEnv : UsersCollector.Env :=
  { orgLookup := fun _ => .ok [("organization", .obj [("name", .str "Acme")])],
    groupLookup := fun _ => .ok [("group", .obj [("name", .str "Support")])],
    membershipsLookup := fun _ => .ok [("group_memberships", .arr [])],
    searchCount := fun _ => .ok [("count", .num 2)] }

def demoTicket : Record :=
  [("id", .num 1), ("status", .str "open"), ("requester_id", .num 10)]

def demoUser : Record :=
  [("id", .num 10), ("name", .str "Ada"), ("organization_id", .num 5)]

mutual

theorem JVal.beq_refl : ∀ a : JVal, JVal.beq a a = true
  | .null => rfl
  | .bool b => by simp [JVal.beq]
  | .num n => by simp [JVal.beq]
  | .str s => by simp [JVal.beq]
  | .arr xs => by simp [JVal.beq, JVal.beqArr_refl xs]
  | .obj xs => by simp [JVal.beq, JVal.beqObj_refl xs]

theorem JVal.beqArr_refl : ∀ xs : List JVal, JVal.beqArr xs xs = true
  | [] => rfl
  | x :: xs => by simp [JVal.beqArr, JVal.beq_refl x, JVal.beqArr_refl xs]

theorem JVal.beqObj_refl : ∀ xs : List (String × JVal), JVal.beqObj xs xs = true
  | [] => rfl
  | (k, v) :: xs => by simp [JVal.beqObj, JVal.beq_refl v, JVal.beqObj_refl xs]

end

/-- C5: the transport's request function classifies every outcome: a response
with status 200, 201 or 204 is returned unchanged; 401, 403, 404, 429, any
status ≥ 500, and any other non-2xx status raise an error carrying that
status code; the 429 error carries a Retry-After seconds value from the
response header, defaulting to 60 when absent; a network-level exception
raises an error carrying no status code; and a JSON decode failure on an
otherwise-successful GET raises a decode error. -/
theorem C5_transport_classifies_outcomes :
    (∀ ep r, (r.status = 200 ∨ r.status = 201 ∨ r.status = 204) →
      ZendeskClient.make_request ep (.resp r) = .ok r) ∧
    (∀ ep r s, s ∈ ([401, 403, 404, 429] : List Nat) → r.status = s →
      ∃ e, ZendeskClient.make_request ep (.resp r) = .error e ∧
        e.status_code = some s) ∧
    (∀ ep r, 500 ≤ r.status →
      ∃ e, ZendeskClient.make_request ep (.resp r) = .error e ∧
        e.status_code = some r.status) ∧
    (∀ ep r, r.status ∉ ([200, 201, 204, 401, 403, 404, 429] : List Nat) →
      ¬(200 ≤ r.status ∧ r.status < 300) →
      ∃ e, ZendeskClient.make_request ep (.resp r) = .error e ∧
        e.status_code = some r.status) ∧
    (∀ ep r, r.status = 429 →
      ZendeskClient.make_request ep (.resp r) =
        .error ⟨"Rate limit exceeded. Retry after "
                  ++ toString (r.retryAfterHeader.getD 60) ++ " seconds.",
                some 429, some r⟩) ∧
    (∀ ep x, ZendeskClient.make_request ep (.exc x) =
      .error ⟨"Request failed: " ++ netExcMsg x, none, none⟩) ∧
    (∀ ep r, r.status = 200 → r.body = none →
      ZendeskClient.get ep (.resp r) =
        .error ⟨"Invalid JSON response from API", none, none⟩) := by
  refine ⟨?_, ?_, ?_, ?_, ?_, ?_, ?_⟩
  · rintro ep r (h | h | h) <;> simp [ZendeskClient.make_request, h]
  · intro ep r s hs hr
    simp only [List.mem_cons, List.not_mem_nil, or_false] at hs
    simp only [ZendeskClient.make_request]
    rcases hs with h | h | h | h <;> subst h <;>
      [skip; rw [if_neg (by omega)]; rw [if_neg (by omega), if_neg (by omega)];
       rw [if_neg (by omega), if_neg (by omega), if_neg (by omega)]] <;>
      rw [if_neg (by omega), if_neg (by omega), if_neg (by omega), if_pos hr] <;>
      exact ⟨_, rfl, rfl⟩
  · intro ep r h
    simp only [ZendeskClient.make_request]
    repeat rw [if_neg (by omega)]
    rw [if_pos (by omega)]
    exact ⟨_, rfl, rfl⟩
  · intro ep r hmem h2xx
    simp only [List.mem_cons, List.not_mem_nil, or_false, not_or] at hmem
    obtain ⟨h200, h201, h204, h401, h403, h404, h429⟩ := hmem
    simp only [ZendeskClient.make_request]
    rw [if_neg h200, if_neg h201, if_neg h204, if_neg h401, if_neg h403,
        if_neg h404, if_neg h429]
    by_cases h5 : 500 ≤ r.status
    · rw [if_pos h5]; exact ⟨_, rfl, rfl⟩
    · rw [if_neg h5]; exact ⟨_, rfl, rfl⟩
  · intro ep r hr
    simp [ZendeskClient.make_request, hr, retryAfterOf]
  · intro ep x
    rfl
  · intro ep r h200 hbody
    simp [ZendeskClient.get, ZendeskClient.make_request, h200, hbody]

theorem C5_transport_classifies_outcomes_witness :
    (ZendeskClient.make_request "/tickets.json" (.resp ⟨200, none, some (.obj [])⟩)
        = .ok ⟨200, none, some (.obj [])⟩) ∧
    (∃ e, ZendeskClient.make_request "/tickets.json" (.resp ⟨404, none, none⟩)
        = .error e ∧ e.status_code = some 404) ∧
    (∃ e, ZendeskClient.make_request "/tickets.json" (.resp ⟨503, none, none⟩)
        = .error e ∧ e.status_code = some 503) ∧
    (∃ e, ZendeskClient.make_request "/tickets.json" (.resp ⟨302, none, none⟩)
        = .error e ∧ e.status_code = some 302) ∧
    (ZendeskClient.make_request "/tickets.json" (.resp ⟨429, some 5, none⟩)
        = .error ⟨"Rate limit exceeded. Retry after "
                    ++ toString ((some 5 : Option Nat).getD 60) ++ " seconds.",
                  some 429, some ⟨429, some 5, none⟩⟩) ∧
    (ZendeskClient.get "/tickets.json" (.resp ⟨200, none, none⟩)
        = .error ⟨"Invalid JSON response from API", none, none⟩) :=
  ⟨C5_transport_classifies_outcomes.1 _ _ (Or.inl rfl),
   C5_transport_classifies_outcomes.2.1 _ _ 404 (by decide) rfl,
   C5_transport_classifies_outcomes.2.2.1 _ _ (by decide),
   C5_transport_classifies_outcomes.2.2.2.1 _ _ (by decide) (by decide),
   C5_transport_classifies_outcomes.2.2.2.2.1 _ _ rfl,
   C5_transport_classifies_outcomes.2.2.2.2.2.2 _ _ rfl rfl⟩

/-! ### Trace bookkeeping lemmas for the retry wrapper -/

theorem callCount_nil : callCount ([] : List Event) = 0 := rfl

theorem callCount_cons_call (n : Nat) (l : List Event) :
    callCount (Event.call n :: l) = callCount l + 1 := by
  simp [callCount, List.filter_cons]

theorem callCount_cons_sleep (s : Nat) (l : List Event) :
    callCount (Event.sleep s :: l) = callCount l := by
  simp [callCount, List.filter_cons]

theorem callCount_append (a b : List Event) :
    callCount (a ++ b) = callCount a + callCount b := by
  simp [callCount, List.filter_append]

theorem callCount_sleeps (ss : List Nat) :
    callCount (ss.map Event.sleep) = 0 := by
  induction ss with
  | nil => rfl
  | cons s ss ih => simpa [callCount_cons_sleep] using ih

/-- Every run of the retry loop begins by invoking the underlying function. -/
theorem retryLoop_trace_head (f : AttemptFn) (fuel n : Nat) :
    ∃ tail, (retryLoop f fuel n).2 = Event.call n :: tail := by
  rcases fuel with _ | _ | fuel <;> rw [retryLoop] <;> (try dsimp only) <;>
    split <;> (try split) <;> exact ⟨_, rfl⟩

/-- A call raising `ZendeskAPIError` is not retried: one invocation, the
error surfaces unchanged. -/
theorem retryLoop_api_error (f : AttemptFn) (e : ZendeskAPIError)
    (fuel n : Nat) (hf : f n = .error (.api e)) :
    retryLoop f fuel n = (.error (.api e), [Event.call n]) := by
  have hb : wrapperBody f n = (.error (.api e), []) := by
    simp [wrapperBody, hf]
  rcases fuel with _ | _ | fuel <;> rw [retryLoop] <;> simp [hb, isRetryable]

/-- A call raising a network-layer `requests` exception on every attempt is
re-invoked until the attempt budget is exhausted, after which tenacity raises
`RetryError` wrapping the last attempt's exception. -/
theorem retryLoop_all_net (f : AttemptFn) (g : Nat → NetExc)
    (hf : ∀ k, f k = .error (.net (g k))) :
    ∀ (fuel n : Nat), 1 ≤ fuel →
      (retryLoop f fuel n).1 = .error (.retryError (.net (g (n + fuel - 1)))) ∧
      callCount (retryLoop f fuel n).2 = fuel
  | 0, n, h => absurd h (by omega)
  | 1, n, _ => by
    have hb : wrapperBody f n = (.error (.net (g n)), []) := by
      simp [wrapperBody, hf n]
    rw [retryLoop]
    simp [hb, isRetryable, callCount_cons_call, callCount_nil]
  | fuel + 2, n, _ => by
    have hb : wrapperBody f n = (.error (.net (g n)), []) := by
      simp [wrapperBody, hf n]
    have ih := retryLoop_all_net f g hf (fuel + 1) (n + 1) (by omega)
    rw [retryLoop]
    have harg : n + 1 + (fuel + 1) - 1 = n + (fuel + 2) - 1 := by omega
    constructor
    · simp only [hb, isRetryable]
      rw [harg] at ih
      exact ih.1
    · simp only [hb, isRetryable]
      simp [callCount_append, callCount_cons_call, callCount_cons_sleep, ih.2]

/-- `_make_request` returns a response only out of its 200/201/204 branches. -/
theorem make_request_ok_status (ep : String) (o : ReqOutcome) (r : HttpResponse)
    (h : ZendeskClient.make_request ep o = .ok r) :
    r.status = 200 ∨ r.status = 201 ∨ r.status = 204 := by
  cases o with
  | exc e => simp [ZendeskClient.make_request] at h
  | resp response =>
    simp only [ZendeskClient.make_request] at h
    split_ifs at h with h1 h2 h3 h4 h5 h6 h7 h8
    · injection h with h
      subst h
      exact Or.inl h1
    · injection h with h
      subst h
      exact Or.inr (Or.inl h2)
    · injection h with h
      subst h
      exact Or.inr (Or.inr h3)
    all_goals simp at h

/-- Through `_make_request`, the wrapper's 429 handling is unreachable:
every outcome is either a 2xx response (status 200/201/204, never 429) or a
raised `ZendeskAPIError` (neither a returned object with
`status_code == 429` nor a `requests` `HTTPError`), so the wrapper body
performs no sleep and passes the outcome straight through. -/
theorem wrapperBody_client (ep : String) (outcomes : Nat → ReqOutcome) (n : Nat) :
    wrapperBody (clientAttemptFn ep outcomes) n =
      (clientAttemptFn ep outcomes n, []) := by
  unfold wrapperBody clientAttemptFn
  rcases hmk : ZendeskClient.make_request ep (outcomes n) with e | r
  · rfl
  · have h429 : ¬ r.status = 429 := by
      rcases make_request_ok_status ep (outcomes n) r hmk with h | h | h <;> omega
    simp [h429]

theorem clientAttemptFn_cases (ep : String) (outcomes : Nat → ReqOutcome) (n : Nat) :
    (∃ r, clientAttemptFn ep outcomes n = .ok r) ∨
    (∃ e, clientAttemptFn ep outcomes n = .error (.api e)) := by
  unfold clientAttemptFn
  rcases ZendeskClient.make_request ep (outcomes n) with e | r
  · exact Or.inr ⟨e, rfl⟩
  · exact Or.inl ⟨r, rfl⟩

/-- On the client's request path one attempt is all that ever happens: a
2xx response succeeds, and every error reaching tenacity is a
`ZendeskAPIError`, which `retry_if_exception_type` does not match. -/
theorem retryLoop_client (ep : String) (outcomes : Nat → ReqOutcome)
    (fuel n : Nat) :
    retryLoop (clientAttemptFn ep outcomes) fuel n =
      (clientAttemptFn ep outcomes n, [Event.call n]) := by
  have hwb := wrapperBody_client ep outcomes n
  rcases clientAttemptFn_cases ep outcomes n with ⟨r, hf⟩ | ⟨e, hf⟩ <;>
    rcases fuel with _ | _ | fuel <;>
    rw [retryLoop] <;>
    simp [hwb, hf, isRetryable]

/-- C1 (code bug): the retry policy never fires on the client's request
path. `_make_request` â the function actually decorated â converts every
network-layer exception into a `ZendeskAPIError` (zendesk_client.py lines
89-90), which `retry_if_exception_type((RequestException, ...))` does not
match. So whatever the underlying `session.request` does on each attempt,
the decorated call invokes it exactly once and performs no retry sleep; in
particular a connection error raised on every attempt is invoked once and
`ZendeskAPIError("Request failed: ...")` surfaces immediately, not the
claimed `retry_attempts` invocations with the last transient error
surfacing afterwards. (The non-retryable half of the claim holds for the
degenerate reason that every error on this path is non-retryable.) -/
theorem C1_network_errors_never_retried :
    (∀ (rpm attempts : Nat) (ep : String) (outcomes : Nat → ReqOutcome) (q : Window),
      (rate_limited_request rpm attempts (clientAttemptFn ep outcomes) q).1.2 =
        [Event.call 1] ∧
      (rate_limited_request rpm attempts (clientAttemptFn ep outcomes) q).1.1 =
        clientAttemptFn ep outcomes 1) ∧
    ((rate_limited_request 700 3
        (clientAttemptFn "/tickets.json" (fun _ => .exc .connectionError)) []).1.1 =
      .error (.api ⟨"Request failed: " ++ netExcMsg .connectionError, none, none⟩)) ∧
    callCount (rate_limited_request 700 3
        (clientAttemptFn "/tickets.json" (fun _ => .exc .connectionError)) []).1.2
      = 1 := by
  refine ⟨?_, ?_, ?_⟩
  · intro rpm attempts ep outcomes q
    unfold rate_limited_request apiRateLimiterCall
    rw [retryLoop_client]
    exact ⟨rfl, rfl⟩
  · unfold rate_limited_request apiRateLimiterCall
    rw [retryLoop_client]
    rfl
  · unfold rate_limited_request apiRateLimiterCall
    rw [retryLoop_client]
    rfl

/-- C7 (code bug): the server-mandated `Retry-After` sleep never happens on
the client's request path. A 429 response makes `_make_request` raise
`ZendeskAPIError` (zendesk_client.py line 83 â whose comment says it
"should be handled by retry logic") instead of returning the response; the
wrapper's 429 handling matches only a *returned* object with
`status_code == 429` or a raised `requests` `HTTPError`, and
`ZendeskAPIError` is neither, so with `Retry-After: 5` the decorated call
sleeps 0 seconds, makes no second attempt, and surfaces the 429
`ZendeskAPIError` at once. -/
theorem C7_429_never_sleeps_on_client_path :
    (ZendeskClient.make_request "/tickets.json" (.resp ⟨429, some 5, none⟩) =
      .error ⟨"Rate limit exceeded. Retry after "
          ++ toString (retryAfterOf ⟨429, some 5, none⟩) ++ " seconds.",
        some 429, some ⟨429, some 5, none⟩⟩) ∧
    (rate_limited_request 700 3
        (clientAttemptFn "/tickets.json" (fun _ => .resp ⟨429, some 5, none⟩))
        []).1.2 = [Event.call 1] ∧
    sleepSum (rate_limited_request 700 3
        (clientAttemptFn "/tickets.json" (fun _ => .resp ⟨429, some 5, none⟩))
        []).1.2 = 0 ∧
    callCount (rate_limited_request 700 3
        (clientAttemptFn "/tickets.json" (fun _ => .resp ⟨429, some 5, none⟩))
        []).1.2 = 1 ∧
    (rate_limited_request 700 3
        (clientAttemptFn "/tickets.json" (fun _ => .resp ⟨429, some 5, none⟩))
        []).1.1 =
      .error (.api ⟨"Rate limit exceeded. Retry after "
          ++ toString (retryAfterOf ⟨429, some 5, none⟩) ++ " seconds.",
        some 429, some ⟨429, some 5, none⟩⟩) := by
  refine ⟨rfl, ?_, ?_, ?_, ?_⟩ <;>
    · unfold rate_limited_request apiRateLimiterCall
      rw [retryLoop_client]
      try rfl

/-- C2 (code bug): the client's rate-limited request path never passes
through the sliding-window throttle. `APIRateLimiter.__call__` — the
decorator that `rate_limited_request` applies to `_make_request` — only
installs the tenacity retry wrapper and never calls
`RateLimiter.wait_if_needed`, so the throttle queue is unchanged by every
call, a successful call produces no sleep at all even when the window is
already full, and `requests_per_minute` has no effect; by contrast
`wait_if_needed` itself (reachable only through the unused `limit_request`)
would impose a wait. -/
theorem C2_decorated_path_bypasses_throttle :
    (∀ (rpm attempts : Nat) (f : AttemptFn) (q : Window),
        (rate_limited_request rpm attempts f q).2 = q) ∧
    ((rate_limited_request 1 3
        (fun _ => .ok ⟨200, none, some (.obj [])⟩) [0, 0]).1 =
      (.ok ⟨200, none, some (.obj [])⟩, [Event.call 1])) ∧
    ((rate_limited_request 1 3
        (fun _ => .ok ⟨200, none, some (.obj [])⟩) [0, 0]).2 = [0, 0]) ∧
    wait_if_needed 1 [0] 30 = (30, [30]) := by
  refine ⟨fun _ _ _ _ => rfl, ?_, rfl, ?_⟩
  · unfold rate_limited_request apiRateLimiterCall
    rw [retryLoop]
    simp [wrapperBody]
  · show wait_if_needed 1 [0] 30 = (30, [30])
    norm_num [wait_if_needed, evictOld]

/-! ### Sliding-window lemmas (C8) -/

/-- On a chronologically sorted queue the front-eviction loop removes exactly
the entries strictly older than 60 seconds. -/
theorem evictOld_eq_filter (now : ℚ) :
    ∀ times : Window, times.Sorted (· ≤ ·) →
      evictOld now times = times.filter (fun t => decide (now - t ≤ 60))
  | [], _ => rfl
  | t :: rest, h => by
    rw [List.sorted_cons] at h
    by_cases hc : now - t > 60
    · have hd : (decide (now - t ≤ 60)) = false := by
        simpa using not_le.mpr hc
      rw [evictOld, if_pos hc, List.filter_cons, hd, if_neg Bool.false_ne_true]
      exact evictOld_eq_filter now rest h.2
    · have hle : now - t ≤ 60 := not_lt.mp hc
      have hd : (decide (now - t ≤ 60)) = true := by simpa using hle
      have hrest : rest.filter (fun u => decide (now - u ≤ 60)) = rest := by
        apply List.filter_eq_self.mpr
        intro u hu
        have htu := h.1 u hu
        simpa using by linarith
      rw [evictOld, if_neg hc, List.filter_cons, hd, if_pos rfl, hrest]

theorem inWindowCount_append_now (now : ℚ) (X : Window)
    (hX : ∀ u ∈ X, now - u ≤ 60) :
    inWindowCount now (X ++ [now]) = X.length + 1 := by
  unfold inWindowCount
  rw [List.filter_append]
  have h1 : X.filter (fun t => decide (now - t ≤ 60)) = X :=
    List.filter_eq_self.mpr (fun u hu => by simpa using hX u hu)
  have h2 : ([now] : Window).filter (fun t => decide (now - t ≤ 60)) = [now] := by
    have : now - now ≤ 60 := by norm_num
    simp [this]
  rw [h1, h2, List.length_append]
  simp

/-- C8 (amended): on a chronologically sorted queue, `wait_if_needed` with
fewer than `limit` in-window timestamps introduces no delay; with the window
full it sleeps exactly until the oldest in-window timestamp `t0` is 60
seconds old and removes it — but only when `t0` is strictly younger than 60
seconds; when `t0` is already exactly 60 seconds old it neither sleeps nor
removes, so the queue can briefly hold `limit + 1` in-window timestamps. In
every case the entry timestamp `now` is appended afterwards. -/
theorem C8_wait_if_needed_amended :
    ∀ (limit : Nat) (times : Window) (now : ℚ),
      1 ≤ limit → times.Sorted (· ≤ ·) →
      ((inWindowCount now times < limit →
          wait_if_needed limit times now =
            (0, times.filter (fun t => decide (now - t ≤ 60)) ++ [now])) ∧
        (∀ t0 rest,
          times.filter (fun t => decide (now - t ≤ 60)) = t0 :: rest →
          limit ≤ inWindowCount now times →
          (now - t0 < 60 →
            wait_if_needed limit times now = (t0 + 60 - now, rest ++ [now])) ∧
          (now - t0 = 60 →
            wait_if_needed limit times now = (0, t0 :: (rest ++ [now])))) ∧
        (inWindowCount now times ≤ limit →
          inWindowCount now (wait_if_needed limit times now).2 ≤ limit ∨
          (inWindowCount now times = limit ∧
            inWindowCount now (wait_if_needed limit times now).2 = limit + 1 ∧
            ∃ rest, times.filter (fun t => decide (now - t ≤ 60)) =
              (now - 60) :: rest))) := by
  intro limit times now hlim hsort
  have hev := evictOld_eq_filter now times hsort
  have hcount : inWindowCount now times =
      (times.filter (fun t => decide (now - t ≤ 60))).length := rfl
  have hyoungF : ∀ u ∈ times.filter (fun t => decide (now - t ≤ 60)),
      now - u ≤ 60 := fun u hu => by
    simpa using (List.mem_filter.mp hu).2
  have hbelow : inWindowCount now times < limit →
      wait_if_needed limit times now =
        (0, times.filter (fun t => decide (now - t ≤ 60)) ++ [now]) := by
    intro hlt
    have hnot : ¬ (limit ≤ (times.filter (fun t => decide (now - t ≤ 60))).length) := by
      omega
    simp only [wait_if_needed, hev, if_neg hnot]
  have hfullcase : ∀ t0 rest,
      times.filter (fun t => decide (now - t ≤ 60)) = t0 :: rest →
      limit ≤ inWindowCount now times →
      (now - t0 < 60 →
        wait_if_needed limit times now = (t0 + 60 - now, rest ++ [now])) ∧
      (now - t0 = 60 →
        wait_if_needed limit times now = (0, t0 :: (rest ++ [now]))) := by
    intro t0 rest hfil hge
    have hlen : limit ≤ (t0 :: rest).length := by
      rw [← hfil, ← hcount]; exact hge
    constructor
    · intro hlt
      have hpos : t0 + 60 - now > 0 := by linarith
      simp only [wait_if_needed, hev, hfil, if_pos hlen, if_pos hpos]
    · intro h60
      have hnpos : ¬ (t0 + 60 - now > 0) := by linarith
      simp only [wait_if_needed, hev, hfil, if_pos hlen, if_neg hnpos,
        List.cons_append]
  refine ⟨hbelow, hfullcase, ?_⟩
  intro hle
  by_cases hfull : limit ≤ inWindowCount now times
  · have heq : inWindowCount now times = limit := le_antisymm hle hfull
    obtain ⟨t0, rest, hfil⟩ : ∃ t0 rest,
        times.filter (fun t => decide (now - t ≤ 60)) = t0 :: rest := by
      rcases hF : times.filter (fun t => decide (now - t ≤ 60)) with _ | ⟨a, l⟩
      · exfalso
        rw [hcount, hF] at heq
        simp at heq
        omega
      · exact ⟨a, l, rfl⟩
    have hyoung : now - t0 ≤ 60 := hyoungF t0 (by rw [hfil]; exact List.mem_cons_self _ _)
    have hyrest : ∀ u ∈ rest, now - u ≤ 60 := fun u hu =>
      hyoungF u (by rw [hfil]; exact List.mem_cons_of_mem _ hu)
    have hlenF : (t0 :: rest).length = limit := by rw [← hfil, ← hcount]; exact heq
    rcases lt_or_eq_of_le hyoung with hlt | h60
    · left
      rw [(hfullcase t0 rest hfil hfull).1 hlt]
      have := inWindowCount_append_now now rest hyrest
      simp only [this]
      simp at hlenF
      omega
    · right
      have ht0 : t0 = now - 60 := by linarith
      refine ⟨heq, ?_, ⟨rest, by rw [← ht0]; exact hfil⟩⟩
      rw [(hfullcase t0 rest hfil hfull).2 h60]
      have : inWindowCount now ((t0 :: rest) ++ [now]) = (t0 :: rest).length + 1 := by
        apply inWindowCount_append_now
        intro u hu
        rcases List.mem_cons.mp hu with h | h
        · rw [h]; exact hyoung
        · exact hyrest u h
      simp only [List.cons_append] at this
      rw [this]
      omega
  · left
    push_neg at hfull
    rw [hbelow hfull]
    have := inWindowCount_append_now now
      (times.filter (fun t => decide (now - t ≤ 60))) hyoungF
    simp only [this]
    omega

/-- C8 counterexample: with limit 1, queue `[0]` and the call arriving at
time 60, the single in-window timestamp count is at the limit and the oldest
entry is exactly 60 seconds old; the code neither sleeps nor removes it and
appends the new timestamp, leaving two in-window timestamps — the claim's
"removes it" and "at most requests-per-minute in-window timestamps
afterwards" both fail here. -/
theorem C8_wait_if_needed_counterexample :
    wait_if_needed 1 [0] 60 = (0, [0, 60]) ∧
    inWindowCount 60 [0] = 1 ∧
    (0 : ℚ) ∈ (wait_if_needed 1 [0] 60).2 ∧
    inWindowCount 60 (wait_if_needed 1 [0] 60).2 = 2 := by
  refine ⟨?_, ?_, ?_, ?_⟩ <;> norm_num [wait_if_needed, evictOld, inWindowCount]

/-! ### Paginator lemmas (C3) -/

theorem findDataKey_cons_of_not_arr {k' : String} {v : JVal} {rest : Record}
    (h : isArr v = false) :
    findDataKey ((k', v) :: rest) = findDataKey rest := by
  cases v <;> simp [findDataKey] <;> simp [isArr] at h

theorem recordLookup_cons_ne {k' : String} {v : JVal} {rest : Record}
    {k : String} (h : k' ≠ k) :
    recordLookup ((k', v) :: rest) k = recordLookup rest k := by
  simp [recordLookup, h]

theorem findDataKey_mem : ∀ (r : Record) (k : String),
    findDataKey r = some k → k ∈ r.map Prod.fst
  | [], k, h => by simp [findDataKey] at h
  | (k', v) :: rest, k, h => by
    by_cases ha : isArr v = true
    · obtain ⟨xs, rfl⟩ : ∃ xs, v = JVal.arr xs := by
        cases v <;> first | exact ⟨_, rfl⟩ | simp [isArr] at ha
      rw [findDataKey] at h
      by_cases hk : k' ≠ "next_page"
      · rw [if_pos hk] at h
        injection h with h
        simp [h]
      · rw [if_neg hk] at h
        exact List.mem_cons_of_mem _ (findDataKey_mem rest k h)
    · rw [findDataKey_cons_of_not_arr (by simpa using ha)] at h
      exact List.mem_cons_of_mem _ (findDataKey_mem rest k h)

/-- On a body with unique keys whose only list-valued field is `(k, xs)`
(and `k` is not `next_page`), the paginator's key heuristic finds exactly
that field. -/
theorem pageItems_unique : ∀ (r : Record) (k : String) (xs : List JVal),
    (r.map Prod.fst).Nodup → (k, JVal.arr xs) ∈ r → k ≠ "next_page" →
    (∀ p ∈ r, isArr p.2 = true → p.1 = k) →
    pageItems r = xs
  | [], _, _, _, hmem, _, _ => absurd hmem (List.not_mem_nil _)
  | (k', v) :: rest, k, xs, hnd, hmem, hk, hall => by
    rw [List.map_cons, List.nodup_cons] at hnd
    rcases List.mem_cons.mp hmem with heq | hmem'
    · have h1 : k' = k := congrArg Prod.fst heq.symm
      have h2 : v = JVal.arr xs := congrArg Prod.snd heq.symm
      subst h1
      subst h2
      unfold pageItems
      rw [findDataKey, if_pos hk]
      simp [recordLookup]
    · have hkk : k' ≠ k := by
        intro hkk
        subst hkk
        exact hnd.1 (List.mem_map.mpr ⟨_, hmem', rfl⟩)
      have hva : isArr v = false := by
        by_contra hv
        exact hkk (hall (k', v) (List.mem_cons_self _ _) (by simpa using hv))
      have ih := pageItems_unique rest k xs hnd.2 hmem' hk
        (fun p hp => hall p (List.mem_cons_of_mem _ hp))
      unfold pageItems at ih ⊢
      rw [findDataKey_cons_of_not_arr hva]
      rcases hfk : findDataKey rest with _ | k0
      · rw [hfk] at ih
        exact ih
      · rw [hfk] at ih
        have hk0 : k0 ∈ rest.map Prod.fst := findDataKey_mem rest k0 hfk
        have hne : k' ≠ k0 := fun hh => hnd.1 (hh ▸ hk0)
        dsimp only at ih ⊢
        rw [recordLookup_cons_ne hne]
        exact ih

theorem findDataKey_none : ∀ r : Record, (∀ p ∈ r, isArr p.2 = false) →
    findDataKey r = none
  | [], _ => rfl
  | (k', v) :: rest, h => by
    rw [findDataKey_cons_of_not_arr (h (k', v) (List.mem_cons_self _ _))]
    exact findDataKey_none rest (fun p hp => h p (List.mem_cons_of_mem _ hp))

theorem nextUrlOf_ne_empty {r : Record} {u : String}
    (h : nextUrlOf r = some u) : u ≠ "" := by
  unfold nextUrlOf at h
  rcases hlk : recordLookup r "next_page" with _ | v
  · rw [hlk] at h
    simp at h
  · rw [hlk] at h
    rcases v with _ | b | n | s | xs | fs <;> simp at h
    obtain ⟨hs, rfl⟩ := h
    exact hs

/-- The paginator over a served chain of page bodies yields each page's
items in order. -/
theorem get_paginated_chain (server : String → Params → Record) :
    ∀ (chain : List (String × Record)) (endpoint : String) (params : Params)
      (first : Record) (fuel : Nat),
      endpoint ≠ "" →
      server (resolveRequest endpoint params).1 (resolveRequest endpoint params).2
        = first →
      Chained first chain →
      (∀ p ∈ chain,
        server (resolveRequest p.1 []).1 (resolveRequest p.1 []).2 = p.2) →
      chain.length < fuel →
      ZendeskClient.get_paginated server fuel endpoint params =
        ((first :: chain.map Prod.snd).map pageItems).flatten
  | [], endpoint, params, first, fuel, hne, hserv, hch, _, hfuel => by
    obtain ⟨f, rfl⟩ : ∃ f, fuel = f + 1 := ⟨fuel - 1, by omega⟩
    unfold Chained at hch
    rw [ZendeskClient.get_paginated, if_neg hne]
    simp [hserv, hch]
  | (u, b) :: rest, endpoint, params, first, fuel, hne, hserv, hch, hchain, hfuel => by
    obtain ⟨f, rfl⟩ : ∃ f, fuel = f + 1 := ⟨fuel - 1, by omega⟩
    obtain ⟨hnext, hch'⟩ := hch
    have hu : u ≠ "" := nextUrlOf_ne_empty hnext
    have hserv' : server (resolveRequest u []).1 (resolveRequest u []).2 = b :=
      hchain (u, b) (List.mem_cons_self _ _)
    have ih := get_paginated_chain server rest u [] b f hu hserv' hch'
      (fun p hp => hchain p (List.mem_cons_of_mem _ hp))
      (by simpa using Nat.lt_of_succ_lt_succ hfuel)
    rw [ZendeskClient.get_paginated, if_neg hne]
    simp only [hserv, hnext, ih]
    simp

/-- C3: over any served chain of pages the paginator yields exactly the
concatenation of the pages' items in page order and stops when `next_page`
is absent or null; a page whose body holds exactly one list-valued field
(plus `next_page`) contributes exactly that list; a page with no list-valued
field contributes nothing (its `next_page` is still followed by the chain
part); an absolute `next_page` URL is resolved to its path with the
`/api/v2` prefix stripped and its query parameters with singleton lists
unwrapped — the caller-supplied parameters are not reused. -/
theorem C3_paginator_yields_concatenation :
    (∀ (server : String → Params → Record) (chain : List (String × Record))
        (endpoint : String) (params : Params) (first : Record) (fuel : Nat),
      endpoint ≠ "" →
      server (resolveRequest endpoint params).1 (resolveRequest endpoint params).2
        = first →
      Chained first chain →
      (∀ p ∈ chain,
        server (resolveRequest p.1 []).1 (resolveRequest p.1 []).2 = p.2) →
      chain.length < fuel →
      ZendeskClient.get_paginated server fuel endpoint params =
        ((first :: chain.map Prod.snd).map pageItems).flatten) ∧
    (∀ (r : Record) (k : String) (xs : List JVal),
      (r.map Prod.fst).Nodup → (k, JVal.arr xs) ∈ r → k ≠ "next_page" →
      (∀ p ∈ r, isArr p.2 = true → p.1 = k) →
      pageItems r = xs) ∧
    (∀ r : Record, (∀ p ∈ r, isArr p.2 = false) → pageItems r = []) ∧
    (resolveRequest "https://sub.zendesk.com/api/v2/tickets.json?page=2&per_page=100"
        [("status", QVal.one "open")] =
      ("/tickets.json", [("page", QVal.one "2"), ("per_page", QVal.one "100")])) ∧
    (resolveRequest "https://sub.zendesk.com/api/v2/search.json?id=1&id=2" [] =
      ("/search.json", [("id", QVal.many ["1", "2"])])) := by
  refine ⟨get_paginated_chain, pageItems_unique, ?_, by decide, by decide⟩
  intro r h
  unfold pageItems
  rw [findDataKey_none r h]

theorem C3_paginator_yields_concatenation_witness :
    ZendeskClient.get_paginated twoPageServer 3 "/tickets.json" [] =
      (([ticketsPage1, ticketsPage2]).map pageItems).flatten ∧
    pageItems ticketsPage1 = [JVal.num 1, JVal.num 2] ∧
    pageItems [("count", JVal.num 0), ("next_page", JVal.null)] = [] := by
  refine ⟨?_, ?_, ?_⟩
  · exact C3_paginator_yields_concatenation.1 twoPageServer
      [("https://sub.zendesk.com/api/v2/tickets.json?page=2", ticketsPage2)]
      "/tickets.json" [] ticketsPage1 3 (by decide) rfl
      ⟨rfl, rfl⟩ (by intro p hp; simp only [List.mem_singleton] at hp; subst hp; rfl)
      (by simp)
  · exact C3_paginator_yields_concatenation.2.1 ticketsPage1 "tickets"
      [JVal.num 1, JVal.num 2] (by decide) (by simp [ticketsPage1]) (by decide)
      (by decide)
  · exact C3_paginator_yields_concatenation.2.2.1 _ (by decide)

theorem C8_wait_if_needed_amended_witness :
    wait_if_needed 2 [0, 10] 30 = ((0 : ℚ) + 60 - 30, [(10 : ℚ)] ++ [30]) :=
  ((C8_wait_if_needed_amended 2 [0, 10] 30 (by omega)
      (by norm_num [List.sorted_cons])).2.1 0 [10]
    (by norm_num [List.filter]) (by norm_num [inWindowCount, List.filter])).1
    (by norm_num)

/-! ### Dict and cache lemmas (C4, C9, C10) -/

theorem recordLookup_setKey_self (r : Record) (k : String) (v : JVal) :
    recordLookup (setKey r k v) k = some v := by
  induction r with
  | nil => simp [setKey, recordLookup]
  | cons hd rest ih =>
    obtain ⟨k', v'⟩ := hd
    by_cases h : k' = k
    · subst h
      simp [setKey, recordLookup]
    · simp [setKey, recordLookup, h, ih]

theorem recordLookup_setKey_ne (r : Record) (k k' : String) (v : JVal)
    (h : k ≠ k') :
    recordLookup (setKey r k v) k' = recordLookup r k' := by
  induction r with
  | nil => simp [setKey, recordLookup, h]
  | cons hd rest ih =>
    obtain ⟨k0, v0⟩ := hd
    by_cases h0 : k0 = k
    · subst h0
      simp [setKey, recordLookup, h]
    · simp [setKey, recordLookup, h0, ih]

theorem pyGet_setKey_ne (r : Record) (k k' : String) (v : JVal) (h : k ≠ k') :
    pyGet (setKey r k v) k' = pyGet r k' := by
  simp [pyGet, jget, recordLookup_setKey_ne r k k' v h]

theorem cacheLookup_append_self (c : Cache) (k v : JVal)
    (h : cacheLookup c k = none) :
    cacheLookup (c ++ [(k, v)]) k = some v := by
  induction c with
  | nil => simp [cacheLookup, JVal.beq_refl]
  | cons hd rest ih =>
    obtain ⟨k0, v0⟩ := hd
    by_cases h0 : JVal.beq k0 k = true
    · rw [cacheLookup, if_pos h0] at h
      simp at h
    · rw [cacheLookup, if_neg h0] at h
      rw [List.cons_append, cacheLookup, if_neg h0]
      exact ih h

/-- C4: resolving the same non-falsy id twice through a cache-backed
enrichment helper issues exactly one network lookup: the first (uncached)
call issues one and caches the value; the second is served from the cache,
returns the same value and issues none (and so does every later call on the
resulting caches); a lookup failing with `ZendeskAPIError` caches the empty
object, so it too issues exactly one attempt. Stated for the tickets
collector's `_get_organization_info` and `_get_user_info`. -/
theorem C4_enrichment_cache_single_lookup :
    (∀ (env : TicketsCollector.Env) (c : TicketsCollector.Caches) (k : JVal),
      truthy k = true →
      cacheLookup c.organizations_cache k = none →
      (TicketsCollector.get_organization_info env c k).2.2 = 1 ∧
      (TicketsCollector.get_organization_info env
          (TicketsCollector.get_organization_info env c k).2.1 k).2.2 = 0 ∧
      (TicketsCollector.get_organization_info env
          (TicketsCollector.get_organization_info env c k).2.1 k).1 =
        (TicketsCollector.get_organization_info env c k).1) ∧
    (∀ (env : TicketsCollector.Env) (c : TicketsCollector.Caches) (k : JVal)
        (e : ZendeskAPIError),
      truthy k = true →
      cacheLookup c.organizations_cache k = none →
      env.orgLookup k = .error e →
      (TicketsCollector.get_organization_info env c k).1 = .obj []) ∧
    (∀ (env : TicketsCollector.Env) (c : TicketsCollector.Caches) (k v : JVal),
      truthy k = true →
      cacheLookup c.organizations_cache k = some v →
      TicketsCollector.get_organization_info env c k = (v, c, 0)) ∧
    (∀ (env : TicketsCollector.Env) (c : TicketsCollector.Caches) (k : JVal),
      truthy k = true →
      cacheLookup c.users_cache k = none →
      (TicketsCollector.get_user_info env c k).2.2 = 1 ∧
      (TicketsCollector.get_user_info env
          (TicketsCollector.get_user_info env c k).2.1 k).2.2 = 0 ∧
      (TicketsCollector.get_user_info env
          (TicketsCollector.get_user_info env c k).2.1 k).1 =
        (TicketsCollector.get_user_info env c k).1) := by
  refine ⟨?_, ?_, ?_, ?_⟩
  · intro env c k ht hc
    have h2 := cacheLookup_append_self c.organizations_cache k
      (match env.orgLookup k with
        | .ok response => jget response "organization" (.obj [])
        | .error _ => .obj []) hc
    simp [TicketsCollector.get_organization_info, ht, hc, h2]
  · intro env c k e ht hc herr
    simp [TicketsCollector.get_organization_info, ht, hc, herr]
  · intro env c k v ht hc
    simp [TicketsCollector.get_organization_info, ht, hc]
  · intro env c k ht hc
    have h2 := cacheLookup_append_self c.users_cache k
      (match env.userLookup k with
        | .ok response => jget response "user" (.obj [])
        | .error _ => .obj []) hc
    simp [TicketsCollector.get_user_info, ht, hc, h2]

theorem C4_enrichment_cache_single_lookup_witness :
    ((TicketsCollector.get_organization_info stubTicketsEnv {} (.num 7)).2.2 = 1 ∧
      (TicketsCollector.get_organization_info stubTicketsEnv
          (TicketsCollector.get_organization_info stubTicketsEnv {} (.num 7)).2.1
          (.num 7)).2.2 = 0 ∧
      (TicketsCollector.get_organization_info stubTicketsEnv
          (TicketsCollector.get_organization_info stubTicketsEnv {} (.num 7)).2.1
          (.num 7)).1 =
        (TicketsCollector.get_organization_info stubTicketsEnv {} (.num 7)).1) ∧
    (TicketsCollector.get_organization_info stubTicketsEnv {} (.num 7)).1 =
      .obj [] ∧
    ((TicketsCollector.get_user_info stubTicketsEnv {} (.num 10)).2.2 = 1 ∧
      (TicketsCollector.get_user_info stubTicketsEnv
          (TicketsCollector.get_user_info stubTicketsEnv {} (.num 10)).2.1
          (.num 10)).2.2 = 0 ∧
      (TicketsCollector.get_user_info stubTicketsEnv
          (TicketsCollector.get_user_info stubTicketsEnv {} (.num 10)).2.1
          (.num 10)).1 =
        (TicketsCollector.get_user_info stubTicketsEnv {} (.num 10)).1) :=
  ⟨C4_enrichment_cache_single_lookup.1 stubTicketsEnv {} (.num 7) rfl rfl,
   C4_enrichment_cache_single_lookup.2.1 stubTicketsEnv {} (.num 7)
     ⟨"Resource not found: /organizations", some 404, none⟩ rfl rfl rfl,
   C4_enrichment_cache_single_lookup.2.2.2 stubTicketsEnv {} (.num 10) rfl rfl⟩

/-- C10: a falsy id — absent key (`None`), explicit `None`, `0`, or any
other falsy value — makes the cache-backed helpers return `{}` immediately,
with no network lookup and no cache entry; an entity whose id is literally 0
can therefore never be resolved. Stated for the guarded helpers of both
collectors. -/
theorem C10_falsy_id_short_circuits :
    (∀ (env : TicketsCollector.Env) (c : TicketsCollector.Caches) (uid : JVal),
      truthy uid = false →
      TicketsCollector.get_user_info env c uid = (.obj [], c, 0)) ∧
    (∀ (env : TicketsCollector.Env) (c : TicketsCollector.Caches) (oid : JVal),
      truthy oid = false →
      TicketsCollector.get_organization_info env c oid = (.obj [], c, 0)) ∧
    (∀ (env : TicketsCollector.Env) (c : TicketsCollector.Caches) (gid : JVal),
      truthy gid = false →
      TicketsCollector.get_group_info env c gid = (.obj [], c, 0)) ∧
    (∀ (env : UsersCollector.Env) (c : UsersCollector.Caches) (oid : JVal),
      truthy oid = false →
      UsersCollector.get_organization_info env c oid = (.obj [], c, 0)) ∧
    truthy .null = false ∧ truthy (.num 0) = false := by
  refine ⟨?_, ?_, ?_, ?_, rfl, rfl⟩
  · intro env c uid h
    simp [TicketsCollector.get_user_info, h]
  · intro env c oid h
    simp [TicketsCollector.get_organization_info, h]
  · intro env c gid h
    simp [TicketsCollector.get_group_info, h]
  · intro env c oid h
    simp [UsersCollector.get_organization_info, h]

theorem C10_falsy_id_short_circuits_witness :
    TicketsCollector.get_user_info stubTicketsEnv {} .null = (.obj [], {}, 0) ∧
    TicketsCollector.get_user_info stubTicketsEnv {} (.num 0) = (.obj [], {}, 0) ∧
    UsersCollector.get_organization_info stubUsersEnv {} (.num 0) =
      (.obj [], {}, 0) :=
  ⟨C10_falsy_id_short_circuits.1 stubTicketsEnv {} .null rfl,
   C10_falsy_id_short_circuits.1 stubTicketsEnv {} (.num 0) rfl,
   C10_falsy_id_short_circuits.2.2.2.1 stubUsersEnv {} (.num 0) rfl⟩

/-! ### Enrichment frame lemmas (C9, C6) -/

theorem add_comments_frame (env : TicketsCollector.Env)
    (c : TicketsCollector.Caches) (ticket : Record) (ic : Bool) (t1 : Record)
    (c1 : TicketsCollector.Caches)
    (h : TicketsCollector.add_comments env c ticket ic = some (t1, c1)) :
    ∀ k, k ≠ "comments" → recordLookup t1 k = recordLookup ticket k := by
  intro k hk
  simp only [TicketsCollector.add_comments] at h
  split at h
  · split at h
    · simp at h
    · split at h
      · simp only [Option.some.injEq, Prod.mk.injEq] at h
        obtain ⟨⟨rfl, rfl⟩⟩ := h
        exact recordLookup_setKey_ne _ _ _ _ (Ne.symm hk)
      · simp only [Option.some.injEq, Prod.mk.injEq] at h
        obtain ⟨⟨rfl, rfl⟩⟩ := h
        exact recordLookup_setKey_ne _ _ _ _ (Ne.symm hk)
  · simp only [Option.some.injEq, Prod.mk.injEq] at h
    obtain ⟨⟨rfl, rfl⟩⟩ := h
    rfl

theorem add_related_frame (env : TicketsCollector.Env)
    (c : TicketsCollector.Caches) (t : Record) :
    ∀ k, k ∉ (["requester_info", "assignee_info", "organization_info",
        "group_info"] : List String) →
      recordLookup (TicketsCollector.add_related env c t).1 k =
        recordLookup t k := by
  intro k hk
  simp only [List.mem_cons, List.not_mem_nil, or_false, not_or] at hk
  obtain ⟨h1, h2, h3, h4⟩ := hk
  simp only [TicketsCollector.add_related]
  rw [recordLookup_setKey_ne _ _ _ _ (Ne.symm h4),
      recordLookup_setKey_ne _ _ _ _ (Ne.symm h3),
      recordLookup_setKey_ne _ _ _ _ (Ne.symm h2),
      recordLookup_setKey_ne _ _ _ _ (Ne.symm h1)]

theorem add_custom_frame (env : TicketsCollector.Env)
    (c : TicketsCollector.Caches) (t : Record) (t' : Record)
    (c' : TicketsCollector.Caches)
    (h : TicketsCollector.add_custom env c t = some (t', c')) :
    ∀ k, k ≠ "custom_fields_processed" → recordLookup t' k = recordLookup t k := by
  intro k hk
  simp only [TicketsCollector.add_custom] at h
  split at h
  · split at h
    · split at h
      · simp only [Option.some.injEq, Prod.mk.injEq] at h
        obtain ⟨⟨rfl, rfl⟩⟩ := h
        exact recordLookup_setKey_ne _ _ _ _ (Ne.symm hk)
      · simp at h
    · simp at h
  · simp only [Option.some.injEq, Prod.mk.injEq] at h
    obtain ⟨⟨rfl, rfl⟩⟩ := h
    rfl

theorem enrich_ticket_frame (env : TicketsCollector.Env)
    (c : TicketsCollector.Caches) (ticket : Record) (ic : Bool) (t' : Record)
    (c' : TicketsCollector.Caches)
    (h : TicketsCollector.enrich_ticket_data env c ticket ic = some (t', c')) :
    ∀ k, k ∉ ticketDerivedKeys → recordLookup t' k = recordLookup ticket k := by
  intro k hk
  simp only [ticketDerivedKeys, List.mem_cons, List.not_mem_nil, or_false,
    not_or] at hk
  obtain ⟨hc1, hr, ha, ho, hg, hcp⟩ := hk
  simp only [TicketsCollector.enrich_ticket_data] at h
  rcases hac : TicketsCollector.add_comments env c ticket ic with _ | ⟨t1, c1⟩
  · rw [hac] at h
    simp at h
  · rw [hac] at h
    dsimp only at h
    have h5 := add_custom_frame _ _ _ _ _ h k hcp
    have h4 := add_related_frame env c1 t1 k
      (by simp only [List.mem_cons, List.not_mem_nil, or_false, not_or]
          exact ⟨hr, ha, ho, hg⟩)
    have h0 := add_comments_frame _ _ _ _ _ _ hac k hc1
    rw [h5, h4, h0]

theorem enrich_user_frame (env : UsersCollector.Env)
    (c : UsersCollector.Caches) (user : Record) (u' : Record)
    (c' : UsersCollector.Caches)
    (h : UsersCollector.enrich_user_data env c user = some (u', c')) :
    ∀ k, k ∉ userDerivedKeys → recordLookup u' k = recordLookup user k := by
  intro k hk
  simp only [userDerivedKeys, List.mem_cons, List.not_mem_nil, or_false,
    not_or] at hk
  obtain ⟨ho, hg, hs⟩ := hk
  simp only [UsersCollector.enrich_user_data] at h
  split at h
  · simp at h
  · split at h
    · simp at h
    · simp only [Option.some.injEq, Prod.mk.injEq] at h
      obtain ⟨⟨rfl, rfl⟩⟩ := h
      rw [recordLookup_setKey_ne _ _ _ _ (Ne.symm hs),
          recordLookup_setKey_ne _ _ _ _ (Ne.symm hg),
          recordLookup_setKey_ne _ _ _ _ (Ne.symm ho)]

/-- C9: enrichment never changes a record's `id` — the enriched record has
the same `id` as the input — and the only keys whose values can differ
between input and output are the added derived keys (for tickets:
`comments`, `requester_info`, `assignee_info`, `organization_info`,
`group_info`, `custom_fields_processed`; for users: `organization_info`,
`groups_info`, `statistics`). -/
theorem C9_enrichment_preserves_identity :
    (∀ (env : TicketsCollector.Env) (c : TicketsCollector.Caches)
        (ticket : Record) (ic : Bool) (t' : Record) (c' : TicketsCollector.Caches),
      TicketsCollector.enrich_ticket_data env c ticket ic = some (t', c') →
      recordLookup t' "id" = recordLookup ticket "id" ∧
      ∀ k, k ∉ ticketDerivedKeys → recordLookup t' k = recordLookup ticket k) ∧
    (∀ (env : UsersCollector.Env) (c : UsersCollector.Caches) (user : Record)
        (u' : Record) (c' : UsersCollector.Caches),
      UsersCollector.enrich_user_data env c user = some (u', c') →
      recordLookup u' "id" = recordLookup user "id" ∧
      ∀ k, k ∉ userDerivedKeys → recordLookup u' k = recordLookup user k) ∧
    "id" ∉ ticketDerivedKeys ∧ "id" ∉ userDerivedKeys := by
  refine ⟨?_, ?_, by decide, by decide⟩
  · intro env c ticket ic t' c' h
    exact ⟨enrich_ticket_frame env c ticket ic t' c' h "id" (by decide),
      enrich_ticket_frame env c ticket ic t' c' h⟩
  · intro env c user u' c' h
    exact ⟨enrich_user_frame env c user u' c' h "id" (by decide),
      enrich_user_frame env c user u' c' h⟩

theorem C9_enrichment_preserves_identity_witness :
    (∃ t' c', TicketsCollector.enrich_ticket_data stubTicketsEnv {} demoTicket
        true = some (t', c') ∧
      recordLookup t' "id" = recordLookup demoTicket "id") ∧
    (∃ u' c', UsersCollector.enrich_user_data stubUsersEnv {} demoUser =
        some (u', c') ∧
      recordLookup u' "id" = recordLookup demoUser "id") :=
  ⟨⟨_, _, rfl, (C9_enrichment_preserves_identity.1 stubTicketsEnv {} demoTicket
      true _ _ rfl).1⟩,
   ⟨_, _, rfl, (C9_enrichment_preserves_identity.2.1 stubUsersEnv {} demoUser
      _ _ rfl).1⟩⟩

/-- C6: an API error raised while fetching the primary ticket list — even
mid-pagination, after every yielded record was already enriched — makes
`collect_all` return the empty result instead of propagating; an API error
while enriching one record's comment thread degrades to `comments = []` on
that record, and neither the record nor the collection is aborted. -/
theorem C6_collector_error_policy :
    (∀ (env : TicketsCollector.Env) (c : TicketsCollector.Caches) (ic : Bool)
        (items : List Record) (e : ZendeskAPIError) (m : List (JVal × List Record)),
      TicketsCollector.collect_all env c ic ⟨items, none⟩ = some m →
      TicketsCollector.collect_all env c ic ⟨items, some e⟩ = some []) ∧
    (∀ (env : TicketsCollector.Env) (c : TicketsCollector.Caches)
        (ticket : Record) (tid : JVal) (e : ZendeskAPIError),
      recordLookup ticket "id" = some tid →
      env.comments tid = .error e →
      truthy (pyGet ticket "custom_fields") = false →
      ∃ t' c', TicketsCollector.enrich_ticket_data env c ticket true =
          some (t', c') ∧
        recordLookup t' "comments" = some (.arr []) ∧
        TicketsCollector.collect_all env c true ⟨[ticket], none⟩ =
          some [(jget t' "status" (.str "unknown"), [t'])]) := by
  constructor
  · intro env c ic items e m h
    unfold TicketsCollector.collect_all at h ⊢
    dsimp only at h ⊢
    rcases hcl : TicketsCollector.collectLoop env ic items c [] with _ | ⟨acc, c2⟩
    · rw [hcl] at h
      simp at h
    · rfl
  · intro env c ticket tid e hid hcm hcf
    have h1 : TicketsCollector.add_comments env c ticket true =
        some (setKey ticket "comments" (.arr []), c) := by
      simp [TicketsCollector.add_comments, hid, hcm]
    set related :=
      TicketsCollector.add_related env c (setKey ticket "comments" (.arr []))
      with hrel
    have hfr := add_related_frame env c (setKey ticket "comments" (.arr []))
    have hcf5 : truthy (pyGet related.1 "custom_fields") = false := by
      have hx := hfr "custom_fields" (by decide)
      have hy := recordLookup_setKey_ne ticket "comments" "custom_fields"
        (.arr []) (by decide)
      rw [← hrel] at hx
      simp only [pyGet, jget, hx, hy]
      simpa [pyGet, jget] using hcf
    have h3 : TicketsCollector.add_custom env related.2 related.1 =
        some (related.1, related.2) := by
      unfold TicketsCollector.add_custom
      rw [if_neg (by simp [hcf5])]
    have henr : TicketsCollector.enrich_ticket_data env c ticket true =
        some (related.1, related.2) := by
      simp only [TicketsCollector.enrich_ticket_data, h1]
      exact h3
    refine ⟨related.1, related.2, henr, ?_, ?_⟩
    · have hx := hfr "comments" (by decide)
      rw [← hrel] at hx
      rw [hx, recordLookup_setKey_self]
    · simp [TicketsCollector.collect_all, TicketsCollector.collectLoop, henr,
        TicketsCollector.appendByStatus]

theorem C6_collector_error_policy_witness :
    TicketsCollector.collect_all stubTicketsEnv {} true
        ⟨[demoTicket], some ⟨"Server error: 500", some 500, none⟩⟩ = some [] ∧
    (∃ t' c', TicketsCollector.enrich_ticket_data failingCommentsEnv {}
        demoTicket true = some (t', c') ∧
      recordLookup t' "comments" = some (.arr []) ∧
      TicketsCollector.collect_all failingCommentsEnv {} true
          ⟨[demoTicket], none⟩ =
        some [(jget t' "status" (.str "unknown"), [t'])]) :=
  ⟨C6_collector_error_policy.1 stubTicketsEnv {} true [demoTicket]
      ⟨"Server error: 500", some 500, none⟩ _ rfl,
   C6_collector_error_policy.2 failingCommentsEnv {} demoTicket (.num 1)
      ⟨"Server error: 500", some 500, none⟩ rfl rfl rfl⟩

end ZendeskScraper
